import Mathlib

/-!
# Verification of the WindProduction pipeline

Shallow embedding of the wind-production estimation code in `main.py` and
`windprediction.py`, together with theorems settling the specification
claims about it.

Numeric modelling conventions: the Python code computes with IEEE floats;
here exact arithmetic is used, `ℚ` for the piecewise/rational computations
of `windprediction.py` and the selection logic of `main.py`, and `ℝ` with
`Real.rpow` for the power-law vertical profile of `main.py`, whose exponent
is a real parameter.
-/

set_option autoImplicit false

namespace WindProduction

/-! ## windprediction.py: vertical wind distribution -/

/-- Loop body of `wind_vertical_distribution` (windprediction.py, lines
156-158): for each index `i` of `velocity` it appends
`velocity[i] * constant` to the result list, in order. -/
def wvdLoop (constant : ℚ) : List ℚ → List ℚ
  | [] => []
  | v :: vs => v * constant :: wvdLoop constant vs

/-- `wind_vertical_distribution(area_roughness, height_rotor,
height_forecast, velocity)` from windprediction.py, lines 152-160: it sets
`constant = height_rotor / height_forecast` and appends
`velocity[i] * constant` for each entry.  The `area_roughness` parameter
appears in the signature but is never read in the body. -/
def wind_vertical_distribution (area_roughness height_rotor height_forecast : ℚ)
    (velocity : List ℚ) : List ℚ :=
  let _ := area_roughness
  wvdLoop (height_rotor / height_forecast) velocity

/-! ## windprediction.py: wind_power's power curve -/

/-- Per-speed behaviour of the `power_production_curve` generation loop in
`wind_power` (windprediction.py, lines 81-90): for `0 ≤ i < 9` the quadratic
`0.2277 i² - 0.8124 i + 0.4256` is appended and immediately clamped below at
0 by the inner loop; for `9 ≤ i ≤ 20` the value 12 is appended; for `i > 20`
the value 0 is appended; a speed matching no branch (negative) appends
nothing at all. -/
def power_production_curve_entry (i : ℚ) : Option ℚ :=
  if i < 9 ∧ 0 ≤ i then some (max 0 (2277/10000 * i ^ 2 - 8124/10000 * i + 4256/10000))
  else if 9 ≤ i ∧ i ≤ 20 then some 12
  else if 20 < i then some 0
  else none

/-- The full `power_production_curve` list built by the loop over `wind_vel`
in `wind_power` (windprediction.py, lines 78-90): entries for which some
branch fires, in input order; speeds firing no branch are skipped. -/
def power_production_curve (wind_vel : List ℚ) : List ℚ :=
  wind_vel.filterMap power_production_curve_entry

/-! ## windprediction.py: direction classification -/

/-- Compass sector labels used by the classification routines. -/
inductive Sector where
  | north
  | east
  | south
  | west
deriving DecidableEq, Repr

/-- Branch structure of the `if/elif` chain in `wind_orientation`
(windprediction.py, lines 190-201): the first matching branch determines the
sector, and a direction matching no branch is assigned none. -/
def wind_orientation_sector (x : ℚ) : Option Sector :=
  if (0 ≤ x ∧ x ≤ 45) ∨ (315 ≤ x ∧ x ≤ 360) then some Sector.north
  else if 45 < x ∧ x ≤ 135 then some Sector.east
  else if 135 < x ∧ x ≤ 225 then some Sector.south
  else if 225 < x ∧ x < 315 then some Sector.west
  else none

/-- Result of `wind_orientation` (windprediction.py, lines 179-201): the four
direction lists and the four energy lists accumulated per sector. -/
structure OrientationSplit where
  north : List ℚ
  east : List ℚ
  south : List ℚ
  west : List ℚ
  north_energy : List ℚ
  east_energy : List ℚ
  south_energy : List ℚ
  west_energy : List ℚ
deriving DecidableEq, Repr

/-- The empty accumulator state of `wind_orientation`. -/
def OrientationSplit.empty : OrientationSplit :=
  ⟨[], [], [], [], [], [], [], []⟩

/-- One iteration of the loop in `wind_orientation`: direction `x` with
energy `e` is appended to the lists of its branch, or to none of them when
no branch matches. -/
def orientationStep (s : OrientationSplit) (x e : ℚ) : OrientationSplit :=
  match wind_orientation_sector x with
  | some Sector.north => { s with north := s.north ++ [x], north_energy := s.north_energy ++ [e] }
  | some Sector.east => { s with east := s.east ++ [x], east_energy := s.east_energy ++ [e] }
  | some Sector.south => { s with south := s.south ++ [x], south_energy := s.south_energy ++ [e] }
  | some Sector.west => { s with west := s.west ++ [x], west_energy := s.west_energy ++ [e] }
  | none => s

/-- Accumulating loop of `wind_orientation` over paired direction and energy
lists. -/
def orientationLoop (s : OrientationSplit) : List ℚ → List ℚ → OrientationSplit
  | [], _ => s
  | _ :: _, [] => s
  | x :: xs, e :: es => orientationLoop (orientationStep s x e) xs es

/-- `wind_orientation(orientation, wind, energy_3hour_fore)` from
windprediction.py, lines 179-201, restricted to its data effect: splitting
the directions and their energies into the four sector lists.  (The `wind`
argument is unused by the loop; printing is omitted.) -/
def wind_orientation (orientation energy_3hour_fore : List ℚ) : OrientationSplit :=
  orientationLoop OrientationSplit.empty orientation energy_3hour_fore

/-- Branch structure of the sector split inside `read_excel`
(windprediction.py, lines 235-243).  Note the first branch requires
`d ≤ 45 AND 315 ≤ d` simultaneously, exactly as written in the source. -/
def read_excel_sector (d : ℚ) : Option Sector :=
  if d ≤ 45 ∧ 315 ≤ d then some Sector.north
  else if d ≤ 135 ∧ 45 < d then some Sector.east
  else if d ≤ 225 ∧ 135 < d then some Sector.south
  else if d < 315 ∧ 225 < d then some Sector.west
  else none

/-- Sector assignment written from the spec's words (section 4.4): north on
`[0,45] ∪ [315,360)`, east on `(45,135]`, south on `(135,225]`, west on
`(225,315)`; total on in-range input.  Used only to compare the code's
classifiers against the spec. -/
def specSector (d : ℚ) : Sector :=
  if d ≤ 45 ∨ 315 ≤ d then Sector.north
  else if d ≤ 135 then Sector.east
  else if d ≤ 225 then Sector.south
  else Sector.west

/-! ## main.py: turbine selection -/

/-- Round half to even (banker's rounding), the convention of Python's
built-in `round`. -/
def round_half_even (q : ℚ) : ℤ :=
  if q - ⌊q⌋ < 1/2 then ⌊q⌋
  else if q - ⌊q⌋ > 1/2 then ⌊q⌋ + 1
  else if Even ⌊q⌋ then ⌊q⌋ else ⌊q⌋ + 1

/-- Python's `round(q, 2)` on exact values: round half to even at the second
decimal place. -/
def python_round2 (q : ℚ) : ℚ :=
  (round_half_even (q * 100) : ℚ) / 100

/-- Scanning loop behind pandas `Series.idxmax`: keeps the current best
index and value, replacing them only on a strictly greater value, so the
first occurrence of the maximum wins. -/
def idxmaxGo : List ℚ → ℕ → ℚ → ℕ → ℕ
  | [], bi, _, _ => bi
  | v :: vs, bi, bv, i => if bv < v then idxmaxGo vs i v (i + 1) else idxmaxGo vs bi bv (i + 1)

/-- `Series.idxmax` as used by `find_maximum_power` (main.py, line 149):
the index of the first occurrence of the maximum value, or none for an
empty series (where pandas raises). -/
def idxmax : List ℚ → Option ℕ
  | [] => none
  | v :: vs => some (idxmaxGo vs 0 v 1)

/-- Energy column built by `iterate_turbine_library` (main.py, lines 88-96):
for each turbine the hourly power outputs are summed and rounded to two
decimals (`round(results_turbine.power_output.sum(), 2)`). -/
def turbine_energies (powers : List (List ℚ)) : List ℚ :=
  powers.map (fun p => python_round2 p.sum)

/-- `find_maximum_power(results)` (main.py, lines 140-154): the index of the
first row whose `energy_produced_kWh` attains the maximum. -/
def find_maximum_power (energies : List ℚ) : Option ℕ :=
  idxmax energies

/-- Composition of `iterate_turbine_library` and `find_maximum_power`: from
the per-turbine hourly power lists to the selected turbine's position. -/
def select_best_turbine (powers : List (List ℚ)) : Option ℕ :=
  find_maximum_power (turbine_energies powers)

/-! ## windprediction.py: summary aggregation -/

/-- Behaviour of `np.sum(energy_out, axis=1)` (windprediction.py, line 114)
on a list of rows: on a nonempty list of rows it sums each row; on the empty
list numpy builds a one-dimensional empty array and raises an axis error,
modelled as an error value. -/
def np_sum_axis1 (rows : List (List ℚ)) : Except String (List ℚ) :=
  match rows with
  | [] => Except.error "AxisError: axis 1 is out of bounds for array of dimension 1"
  | _ => Except.ok (rows.map List.sum)

/-! ## main.py: power-law vertical wind distribution -/

/-- One input row of the cleaned forecast dataframe consumed by
`calculate_vertical_wind_distribution` (main.py): wind speed at the
forecast height, pressure and temperature. -/
structure ForecastRow where
  wind_speed : ℝ
  pressure : ℝ
  temperature : ℝ

/-- One output row of `calculate_vertical_wind_distribution`: the original
columns plus the constant roughness column and the extrapolated
rotor-height speed. -/
structure DistributedRow where
  wind_speed10 : ℝ
  pressure : ℝ
  temperature : ℝ
  roughness_length : ℝ
  wind_speed100 : ℝ

/-- Placeholder forecast row used as the `getD` default when indexing
tables. -/
def defaultRow : ForecastRow := ⟨0, 0, 0⟩

/-- Placeholder distributed row used as the `getD` default when indexing
tables. -/
def defaultDRow : DistributedRow := ⟨0, 0, 0, 0, 0⟩

/-- Scalar formula applied per row at main.py line 63:
`wind_speed * pow(height_rotor / height_forecast, roughness_coefficient)`,
the power-law vertical profile with real exponent. -/
noncomputable def main_vertical_speed (roughness_coefficient height_rotor height_forecast
    wind_speed : ℝ) : ℝ :=
  wind_speed * (height_rotor / height_forecast) ^ roughness_coefficient

/-- `calculate_vertical_wind_distribution(roughness_coefficient,
height_rotor, height_forecast, forecast_velocity)` from main.py, lines
48-70: every row gains `roughness_length = roughness_coefficient` and
`wind_speed_100 = wind_speed * (height_rotor/height_forecast) ^
roughness_coefficient`; the original columns are kept. -/
noncomputable def calculate_vertical_wind_distribution (roughness_coefficient height_rotor
    height_forecast : ℝ) (forecast_velocity : List ForecastRow) : List DistributedRow :=
  forecast_velocity.map (fun r =>
    ⟨r.wind_speed, r.pressure, r.temperature, roughness_coefficient,
      main_vertical_speed roughness_coefficient height_rotor height_forecast r.wind_speed⟩)

/-! ## Helper lemmas -/

/-- The loop of `wind_vertical_distribution` is the pointwise product with
the height ratio. -/
theorem wvdLoop_eq_map (c : ℚ) (v : List ℚ) : wvdLoop c v = v.map (fun x => x * c) := by
  induction v with
  | nil => rfl
  | cons a as ih => simp [wvdLoop, ih]

/-- Unfolding of `wind_vertical_distribution` to a pointwise product. -/
theorem wind_vertical_distribution_eq_map (r hr hf : ℚ) (v : List ℚ) :
    wind_vertical_distribution r hr hf v = v.map (fun x => x * (hr / hf)) := by
  simp [wind_vertical_distribution, wvdLoop_eq_map]

/-- Invariant of the `idxmax` scanning loop: either no element of the
remaining list beats the current best and the best index is returned, or
the returned index points (relative to offset `i`) at the first strict
improvement over everything before it, which dominates the whole remaining
list. -/
theorem idxmaxGo_spec (vs : List ℚ) : ∀ (bi : ℕ) (bv : ℚ) (i : ℕ),
    (idxmaxGo vs bi bv i = bi ∧ ∀ x ∈ vs, x ≤ bv) ∨
    (∃ j, j < vs.length ∧ idxmaxGo vs bi bv i = i + j ∧ bv < vs.getD j 0 ∧
      (∀ x ∈ vs, x ≤ vs.getD j 0) ∧ (∀ k, k < j → vs.getD k 0 < vs.getD j 0)) := by
  induction vs with
  | nil => intro bi bv i; exact Or.inl ⟨rfl, by simp⟩
  | cons v vs ih =>
    intro bi bv i
    by_cases hlt : bv < v
    · right
      rcases ih i v (i + 1) with ⟨hr, hall⟩ | ⟨j, hj, hr, hbv, hall, hfirst⟩
      · refine ⟨0, by simp, ?_, by simpa using hlt, ?_, ?_⟩
        · simpa [idxmaxGo, hlt] using hr
        · intro x hx
          simp only [List.getD_cons_zero]
          rcases List.mem_cons.mp hx with h | h
          · exact le_of_eq h
          · exact hall x h
        · intro k hk; omega
      · refine ⟨j + 1, by simpa using hj, ?_, ?_, ?_, ?_⟩
        · rw [show i + (j + 1) = (i + 1) + j by omega] at *
          simpa [idxmaxGo, hlt] using hr
        · simp only [List.getD_cons_succ]
          exact lt_trans hlt hbv
        · intro x hx
          simp only [List.getD_cons_succ]
          rcases List.mem_cons.mp hx with h | h
          · rw [h]; exact le_of_lt hbv
          · exact hall x h
        · intro k hk
          match k with
          | 0 => simpa using hbv
          | k + 1 =>
            simp only [List.getD_cons_succ]
            exact hfirst k (by omega)
    · rcases ih bi bv (i + 1) with ⟨hr, hall⟩ | ⟨j, hj, hr, hbv, hall, hfirst⟩
      · left
        refine ⟨by simpa [idxmaxGo, hlt] using hr, ?_⟩
        intro x hx
        rcases List.mem_cons.mp hx with h | h
        · exact h ▸ le_of_not_lt hlt
        · exact hall x h
      · right
        refine ⟨j + 1, by simpa using hj, ?_, ?_, ?_, ?_⟩
        · rw [show i + (j + 1) = (i + 1) + j by omega]
          simpa [idxmaxGo, hlt] using hr
        · simpa using hbv
        · intro x hx
          simp only [List.getD_cons_succ]
          rcases List.mem_cons.mp hx with h | h
          · exact h ▸ le_of_lt (lt_of_le_of_lt (le_of_not_lt hlt) hbv)
          · exact hall x h
        · intro k hk
          match k with
          | 0 => simpa using lt_of_le_of_lt (le_of_not_lt hlt) hbv
          | k + 1 =>
            simp only [List.getD_cons_succ]
            exact hfirst k (by omega)

/-- Elements reached through `getD` at an in-range index are members. -/
theorem getD_mem_of_lt (l : List ℚ) (k : ℕ) (hk : k < l.length) : l.getD k 0 ∈ l := by
  rw [List.getD_eq_getElem l 0 hk]
  exact List.getElem_mem hk

/-- `idxmax` returns an in-range index whose value dominates every entry of
the list and strictly dominates every earlier entry (the first occurrence
of the maximum). -/
theorem idxmax_spec (l : List ℚ) (i : ℕ) (h : idxmax l = some i) :
    i < l.length ∧ (∀ j, j < l.length → l.getD j 0 ≤ l.getD i 0) ∧
    (∀ j, j < i → l.getD j 0 < l.getD i 0) := by
  match l with
  | [] => simp [idxmax] at h
  | v :: vs =>
    have hi : i = idxmaxGo vs 0 v 1 := by
      simpa [idxmax] using h.symm
    rcases idxmaxGo_spec vs 0 v 1 with ⟨hr, hall⟩ | ⟨j, hj, hr, hbv, hall, hfirst⟩
    · subst hi; rw [hr]
      refine ⟨by simp, ?_, ?_⟩
      · intro k hk
        match k with
        | 0 => simp
        | k + 1 =>
          simp only [List.getD_cons_succ, List.getD_cons_zero]
          exact hall _ (getD_mem_of_lt vs k (by simpa using hk))
      · intro k hk; omega
    · subst hi; rw [hr]
      have h1j : 1 + j = j + 1 := by omega
      rw [h1j]
      refine ⟨by simpa using hj, ?_, ?_⟩
      · intro k hk
        match k with
        | 0 => simpa using le_of_lt hbv
        | k + 1 =>
          simp only [List.getD_cons_succ]
          exact hall _ (getD_mem_of_lt vs k (by simpa using hk))
      · intro k hk
        match k with
        | 0 => simpa using hbv
        | k + 1 =>
          simp only [List.getD_cons_succ]
          exact hfirst k (by omega)

/-- Indexing a mapped list through `getD` at an in-range index applies the
function to the entry of the original list. -/
theorem getD_map_of_lt {α β : Type} (f : α → β) (l : List α) (i : ℕ) (da : α) (db : β)
    (h : i < l.length) : (l.map f).getD i db = f (l.getD i da) := by
  rw [List.getD_eq_getElem _ db (by simpa using h), List.getD_eq_getElem _ da h,
    List.getElem_map]

/-- Evaluation rule for `python_round2` in the round-down case: when the
fractional part of `q * 100` is below one half, the result is the floor
over 100. -/
theorem python_round2_eq (q : ℚ) (n : ℤ) (h1 : ⌊q * 100⌋ = n)
    (h2 : q * 100 - (n : ℚ) < 1/2) : python_round2 q = (n : ℚ) / 100 := by
  rw [python_round2, round_half_even, h1, if_pos h2]

/-- A negative speed fires no branch of the curve-generation loop. -/
theorem power_production_curve_entry_of_neg (i : ℚ) (hi : i < 0) :
    power_production_curve_entry i = none := by
  rw [power_production_curve_entry,
    if_neg (by rintro ⟨h1, h2⟩; linarith),
    if_neg (by rintro ⟨h1, h2⟩; linarith),
    if_neg (by intro h; linarith)]

/-- At speed 0 the quadratic branch fires and yields 0.4256. -/
theorem power_production_curve_entry_zero :
    power_production_curve_entry 0 = some (4256/10000) := by
  rw [power_production_curve_entry, if_pos ⟨by norm_num, le_refl (0:ℚ)⟩]
  norm_num

/-- A direction below 0 fires no branch of `wind_orientation`. -/
theorem wind_orientation_sector_of_neg (x : ℚ) (hx : x < 0) :
    wind_orientation_sector x = none := by
  rw [wind_orientation_sector,
    if_neg (by rintro (⟨h1, h2⟩ | ⟨h1, h2⟩) <;> linarith),
    if_neg (by rintro ⟨h1, h2⟩; linarith),
    if_neg (by rintro ⟨h1, h2⟩; linarith),
    if_neg (by rintro ⟨h1, h2⟩; linarith)]

/-- A direction above 360 fires no branch of `wind_orientation`. -/
theorem wind_orientation_sector_of_gt (x : ℚ) (hx : 360 < x) :
    wind_orientation_sector x = none := by
  rw [wind_orientation_sector,
    if_neg (by rintro (⟨h1, h2⟩ | ⟨h1, h2⟩) <;> linarith),
    if_neg (by rintro ⟨h1, h2⟩; linarith),
    if_neg (by rintro ⟨h1, h2⟩; linarith),
    if_neg (by rintro ⟨h1, h2⟩; linarith)]

/-- Direction exactly 360 satisfies the first branch and is classified
north. -/
theorem wind_orientation_sector_360 :
    wind_orientation_sector 360 = some Sector.north := by
  rw [wind_orientation_sector, if_pos (Or.inr ⟨by norm_num, le_refl (360:ℚ)⟩)]

/-! ## Claim theorems -/

/-- C10: for every velocity list and every pair of heights,
`wind_vertical_distribution` returns the same output for any two values of
its `area_roughness` parameter, and each output entry equals
`velocity[i] * (height_rotor / height_forecast)` — the roughness parameter
has no influence on the result. -/
theorem C10_roughness_noninterference (r1 r2 hr hf : ℚ) (v : List ℚ) :
    wind_vertical_distribution r1 hr hf v = wind_vertical_distribution r2 hr hf v ∧
    wind_vertical_distribution r1 hr hf v = v.map (fun x => x * (hr / hf)) :=
  ⟨rfl, wind_vertical_distribution_eq_map r1 hr hf v⟩

/-- C2 counterexample: the claim predicts that a hub speed below the cut-in
speed (3.5 m/s in the spec's own scenario) yields power 0 before any curve
evaluation; but `wind_power` has no cut-in branch, and at hub speed 0 the
clamped quadratic yields 0.4256, not 0. -/
theorem C2_counterexample :
    power_production_curve_entry 0 = some (4256/10000) ∧
    (0 : ℚ) < 35/10 ∧ (4256/10000 : ℚ) ≠ 0 :=
  ⟨power_production_curve_entry_zero, by norm_num, by norm_num⟩

/-- C2 (amended): only the cut-off side of the envelope exists — a hub
speed above 20 m/s yields 0 through a dedicated branch with no curve
evaluation; below 9 m/s the clamped quadratic is always evaluated (there is
no cut-in check), and at speed 0 it yields 0.4256. -/
theorem C2_envelope :
    (∀ i : ℚ, 20 < i → power_production_curve_entry i = some 0) ∧
    (∀ i : ℚ, 0 ≤ i → i < 9 → power_production_curve_entry i
      = some (max 0 (2277/10000 * i ^ 2 - 8124/10000 * i + 4256/10000))) ∧
    power_production_curve_entry 0 = some (4256/10000) := by
  refine ⟨?_, ?_, power_production_curve_entry_zero⟩
  · intro i hi
    rw [power_production_curve_entry,
      if_neg (by rintro ⟨h1, h2⟩; linarith),
      if_neg (by rintro ⟨h1, h2⟩; linarith),
      if_pos hi]
  · intro i h0 h9
    rw [power_production_curve_entry, if_pos ⟨h9, h0⟩]

/-- C2 witness: the cut-off branch at speed 21 and the quadratic branch at
speed 5, obtained by applying `C2_envelope` at concrete inputs. -/
theorem C2_witness :
    (20 : ℚ) < 21 ∧ power_production_curve_entry 21 = some 0 ∧
    power_production_curve_entry 5
      = some (max 0 (2277/10000 * (5:ℚ) ^ 2 - 8124/10000 * 5 + 4256/10000)) :=
  ⟨by norm_num, C2_envelope.1 21 (by norm_num), C2_envelope.2.1 5 (by norm_num) (by norm_num)⟩

/-- C5 counterexample: a speed matching no branch of the curve generation
(speed -1) is silently skipped — the output list is empty and no error
value of any kind is produced, contradicting the claimed MissingBin
failure. -/
theorem C5_counterexample :
    power_production_curve [-1] = ([] : List ℚ) ∧
    power_production_curve_entry (-1) = none := by
  have h := power_production_curve_entry_of_neg (-1) (by norm_num)
  exact ⟨by simp [power_production_curve, h], h⟩

/-- C5 (amended): no MissingBin error exists anywhere — the curve is a
total piecewise formula producing a value for every speed ≥ 0 (there is no
bin table, hence no absent key), and a negative speed fires no branch: the
loop appends nothing, so the record is silently dropped from the output
list rather than surfacing an error. -/
theorem C5_no_missing_bin_error :
    (∀ i : ℚ, i < 0 → power_production_curve_entry i = none) ∧
    (∀ i : ℚ, 0 ≤ i → (power_production_curve_entry i).isSome = true) ∧
    (∀ (v : List ℚ) (i : ℚ), i < 0 →
      power_production_curve (i :: v) = power_production_curve v) := by
  refine ⟨power_production_curve_entry_of_neg, ?_, ?_⟩
  · intro i h0
    rw [power_production_curve_entry]
    rcases lt_or_le i 9 with h9 | h9
    · rw [if_pos ⟨h9, h0⟩]; rfl
    · rcases le_or_lt i 20 with h20 | h20
      · rw [if_neg (by rintro ⟨h1, h2⟩; linarith), if_pos ⟨h9, h20⟩]; rfl
      · rw [if_neg (by rintro ⟨h1, h2⟩; linarith),
          if_neg (by rintro ⟨h1, h2⟩; linarith), if_pos h20]; rfl
  · intro v i hi
    simp [power_production_curve, power_production_curve_entry_of_neg i hi]

/-- C5 witness: `C5_no_missing_bin_error` applied at speeds -2 and 3 and at
the singleton list [-2]. -/
theorem C5_witness :
    power_production_curve_entry (-2) = none ∧
    (power_production_curve_entry 3).isSome = true ∧
    power_production_curve [-2, 3] = power_production_curve [3] :=
  ⟨C5_no_missing_bin_error.1 (-2) (by norm_num),
   C5_no_missing_bin_error.2.1 3 (by norm_num),
   C5_no_missing_bin_error.2.2 [3] (-2) (by norm_num)⟩

/-- C6 counterexample: the out-of-range direction -1 is assigned no sector
and the record is silently dropped from every sector list (no error of any
kind), and direction 360 — out of range per the claim — is classified
north instead of failing. -/
theorem C6_counterexample :
    wind_orientation [-1] [7] = OrientationSplit.empty ∧
    wind_orientation_sector 360 = some Sector.north := by
  refine ⟨?_, wind_orientation_sector_360⟩
  have h := wind_orientation_sector_of_neg (-1) (by norm_num)
  simp [wind_orientation, orientationLoop, orientationStep, h]

/-- C6 (amended): out-of-range directions do not fail with any error:
directions below 0 or above 360 match no branch of `wind_orientation`, so
the record is silently skipped (appended to no sector list), while the
boundary value 360 itself is classified north. -/
theorem C6_out_of_range_skipped :
    (∀ x : ℚ, x < 0 → wind_orientation_sector x = none) ∧
    (∀ x : ℚ, 360 < x → wind_orientation_sector x = none) ∧
    wind_orientation_sector 360 = some Sector.north ∧
    (∀ x e : ℚ, wind_orientation_sector x = none →
      ∀ s, orientationStep s x e = s) := by
  refine ⟨wind_orientation_sector_of_neg, wind_orientation_sector_of_gt,
    wind_orientation_sector_360, ?_⟩
  intro x e h s
  rw [orientationStep, h]

/-- C6 witness: `C6_out_of_range_skipped` applied at directions -1 and 361
and at a concrete accumulator state. -/
theorem C6_witness :
    wind_orientation_sector (-1) = none ∧
    wind_orientation_sector 361 = none ∧
    orientationStep OrientationSplit.empty 361 7 = OrientationSplit.empty :=
  ⟨C6_out_of_range_skipped.1 (-1) (by norm_num),
   C6_out_of_range_skipped.2.1 361 (by norm_num),
   C6_out_of_range_skipped.2.2.2 361 7
     (C6_out_of_range_skipped.2.1 361 (by norm_num)) OrientationSplit.empty⟩

/-- C7 counterexample: on the empty table the summary computation does
raise — `np.sum(energy_out, axis=1)` on the empty energy list is an axis
error, not a zeroed result. -/
theorem C7_counterexample :
    np_sum_axis1 [] =
      Except.error "AxisError: axis 1 is out of bounds for array of dimension 1" :=
  rfl

/-- C7 (amended): on an empty table the summary stage fails instead of
returning zeroed defaults: the row-wise sum raises an axis error on the
empty energy list, and the turbine selector has no result on an empty
results list; on any nonempty energy list the row-wise sum succeeds. -/
theorem C7_empty_table_errors :
    (∃ msg, np_sum_axis1 [] = Except.error msg) ∧
    idxmax [] = none ∧
    (∀ rows : List (List ℚ), rows ≠ [] →
      np_sum_axis1 rows = Except.ok (rows.map List.sum)) := by
  refine ⟨⟨_, rfl⟩, rfl, ?_⟩
  intro rows h
  match rows with
  | [] => exact absurd rfl h
  | r :: rs => rfl

/-- C7 witness: `C7_empty_table_errors` applied to the nonempty energy
table `[[1, 2]]`. -/
theorem C7_witness :
    ([[(1:ℚ), 2]] ≠ ([] : List (List ℚ))) ∧
    np_sum_axis1 [[(1:ℚ), 2]] = Except.ok [3] := by
  refine ⟨by simp, ?_⟩
  have h := C7_empty_table_errors.2.2 [[(1:ℚ), 2]] (by simp)
  simpa [show (1:ℚ) + 2 = 3 by norm_num] using h

/-- C3: `wind_orientation` classifies every in-range direction into exactly
the sector given by the spec's intervals (north on `[0,45] ∪ [315,360)`,
east on `(45,135]`, south on `(135,225]`, west on `(225,315)`), but the
sector split in `read_excel` does not: its north branch demands
`d ≤ 45` and `315 ≤ d` at once, so the northern direction 30 — north per
the spec intervals — is assigned no sector there. -/
theorem C3_sector_classification :
    (∀ d : ℚ, 0 ≤ d → d < 360 →
      wind_orientation_sector d = some (specSector d)) ∧
    read_excel_sector 30 = none ∧ specSector 30 = Sector.north := by
  refine ⟨?_, by norm_num [read_excel_sector], by norm_num [specSector]⟩
  intro d h0 h360
  rcases le_or_lt d 45 with h1 | h1
  · rw [wind_orientation_sector, if_pos (Or.inl ⟨h0, h1⟩),
      specSector, if_pos (Or.inl h1)]
  · rcases le_or_lt d 135 with h2 | h2
    · rw [wind_orientation_sector,
        if_neg (by rintro (⟨g1, g2⟩ | ⟨g1, g2⟩) <;> linarith),
        if_pos ⟨h1, h2⟩, specSector,
        if_neg (by rintro (g | g) <;> linarith),
        if_pos h2]
    · rcases le_or_lt d 225 with h3 | h3
      · rw [wind_orientation_sector,
          if_neg (by rintro (⟨g1, g2⟩ | ⟨g1, g2⟩) <;> linarith),
          if_neg (by rintro ⟨g1, g2⟩; linarith),
          if_pos ⟨h2, h3⟩, specSector,
          if_neg (by rintro (g | g) <;> linarith),
          if_neg (by intro g; linarith),
          if_pos h3]
      · rcases lt_or_le d 315 with h4 | h4
        · rw [wind_orientation_sector,
            if_neg (by rintro (⟨g1, g2⟩ | ⟨g1, g2⟩) <;> linarith),
            if_neg (by rintro ⟨g1, g2⟩; linarith),
            if_neg (by rintro ⟨g1, g2⟩; linarith),
            if_pos ⟨h3, h4⟩, specSector,
            if_neg (by rintro (g | g) <;> linarith),
            if_neg (by intro g; linarith),
            if_neg (by intro g; linarith)]
        · rw [wind_orientation_sector,
            if_pos (Or.inr ⟨h4, by linarith⟩),
            specSector, if_pos (Or.inr h4)]

/-- C3 witness: `C3_sector_classification` applied to the in-range
direction 100 degrees. -/
theorem C3_witness :
    (0 : ℚ) ≤ 100 ∧ (100 : ℚ) < 360 ∧
    wind_orientation_sector 100 = some (specSector 100) :=
  ⟨by norm_num, by norm_num,
    C3_sector_classification.1 100 (by norm_num) (by norm_num)⟩

/-- C8: extrapolating from a height to the same height returns the speed
unchanged, in both implementations: `calculate_vertical_wind_distribution`
leaves the speed column fixed because `(h/h)^e = 1`, and
`wind_vertical_distribution` because `h/h = 1`. -/
theorem C8_same_height_identity :
    (∀ (rc h : ℝ) (t : List ForecastRow), 0 < h →
      (calculate_vertical_wind_distribution rc h h t).map DistributedRow.wind_speed100
        = t.map ForecastRow.wind_speed) ∧
    (∀ (r h : ℚ) (v : List ℚ), 0 < h →
      wind_vertical_distribution r h h v = v) := by
  constructor
  · intro rc h t hh
    simp [calculate_vertical_wind_distribution, main_vertical_speed,
      div_self (ne_of_gt hh), Real.one_rpow]
  · intro r h v hh
    rw [wind_vertical_distribution_eq_map, div_self (ne_of_gt hh)]
    simp

/-- C8 witness: `C8_same_height_identity` applied at height 2 for the
main.py table and height 3 for the windprediction list. -/
theorem C8_witness :
    (0:ℝ) < 2 ∧ (0:ℚ) < 3 ∧
    (calculate_vertical_wind_distribution (22/100) 2 2 [⟨10, 0, 0⟩]).map
      DistributedRow.wind_speed100 = [(10:ℝ)] ∧
    wind_vertical_distribution (22/100) 3 3 [5, 7] = [5, 7] := by
  refine ⟨by norm_num, by norm_num, ?_,
    C8_same_height_identity.2 (22/100) 3 [5, 7] (by norm_num)⟩
  have h := C8_same_height_identity.1 (22/100) 2 [⟨10, 0, 0⟩] (by norm_num)
  simpa using h

/-- C1: `calculate_vertical_wind_distribution` in main.py does compute the
power law `reference_speed * (hub_height / reference_height) ^
shear_exponent` for every record, but `wind_vertical_distribution` in
windprediction.py does not: at reference speed 10, heights 10 → 100 and
exponent 0.22 it returns 100 (the bare height ratio), which differs from
the power-law value `10 * 10 ^ 0.22`. -/
theorem C1_power_law :
    (∀ (rc hr hf : ℝ) (t : List ForecastRow) (i : ℕ), i < t.length →
      ((calculate_vertical_wind_distribution rc hr hf t).getD i defaultDRow).wind_speed100
        = (t.getD i defaultRow).wind_speed * (hr / hf) ^ rc) ∧
    wind_vertical_distribution (22/100) 100 10 [10] = [100] ∧
    (10 : ℝ) * ((100 : ℝ) / 10) ^ ((22 : ℝ) / 100) ≠ 100 := by
  refine ⟨?_, ?_, ?_⟩
  · intro rc hr hf t i hi
    rw [calculate_vertical_wind_distribution,
      getD_map_of_lt _ t i defaultRow defaultDRow hi]
    rfl
  · rw [wind_vertical_distribution_eq_map]
    norm_num
  · have h1 : ((100:ℝ)/10) = 10 := by norm_num
    rw [h1]
    have h2 : (10:ℝ) ^ ((22:ℝ)/100) < 10 ^ (1:ℝ) :=
      Real.rpow_lt_rpow_of_exponent_lt (by norm_num) (by norm_num)
    rw [Real.rpow_one] at h2
    have h3 : (10:ℝ) * 10 ^ ((22:ℝ)/100) < 100 := by linarith
    exact ne_of_lt h3

/-- C1 witness: `C1_power_law` applied to a one-row table, exhibiting the
power-law value of the main.py implementation at concrete parameters. -/
theorem C1_witness :
    (0 : ℕ) < 1 ∧
    ((calculate_vertical_wind_distribution (22/100) 100 10 [⟨10, 5, 3⟩]).getD 0
      defaultDRow).wind_speed100 = 10 * ((100 : ℝ) / 10) ^ ((22 : ℝ) / 100) := by
  refine ⟨Nat.zero_lt_one, ?_⟩
  have h := C1_power_law.1 (22/100) 100 10 [⟨10, 5, 3⟩] 0 (by simp)
  simpa using h

/-- C9 counterexample: for `wind_vertical_distribution`, chaining through
an intermediate height with the claimed power-law factor is not the direct
extrapolation: extrapolating speed 1 from height 1 to height 4 gives 4, but
the chained form through height 2 gives `2 * (4/2)^0.22 < 4`. -/
theorem C9_counterexample :
    wind_vertical_distribution (22/100) 4 1 [1] = [4] ∧
    wind_vertical_distribution (22/100) 2 1 [1] = [2] ∧
    (4 : ℝ) ≠ 2 * ((4 : ℝ) / 2) ^ ((22 : ℝ) / 100) := by
  refine ⟨?_, ?_, ?_⟩
  · rw [wind_vertical_distribution_eq_map]; norm_num
  · rw [wind_vertical_distribution_eq_map]; norm_num
  · have h1 : ((4:ℝ)/2) = 2 := by norm_num
    rw [h1]
    have h2 : (2:ℝ) ^ ((22:ℝ)/100) < 2 ^ (1:ℝ) :=
      Real.rpow_lt_rpow_of_exponent_lt (by norm_num) (by norm_num)
    rw [Real.rpow_one] at h2
    have h3 : 2 * (2:ℝ) ^ ((22:ℝ)/100) < 4 := by linarith
    exact ne_of_gt h3

/-- C9 (amended): power-law composability holds for main.py's
implementation — for positive heights, extrapolating `h1 → h2` equals
extrapolating `h1 → m` and multiplying by `(h2/m)^e` — while
`wind_vertical_distribution`, being linear in the height ratio, composes
only through its own chain rule: extrapolating `h1 → m` and then `m → h2`
equals extrapolating `h1 → h2` directly. -/
theorem C9_composability :
    (∀ (s h1 h2 m e : ℝ), 0 < h1 → 0 < h2 → 0 < m →
      main_vertical_speed e h2 h1 s
        = main_vertical_speed e m h1 s * (h2 / m) ^ e) ∧
    (∀ (r h1 h2 m : ℚ) (v : List ℚ), h1 ≠ 0 → m ≠ 0 →
      wind_vertical_distribution r h2 m (wind_vertical_distribution r m h1 v)
        = wind_vertical_distribution r h2 h1 v) := by
  constructor
  · intro s h1 h2 m e hh1 hh2 hm
    have key : ((m / h1) * (h2 / m) : ℝ) = h2 / h1 := by
      field_simp
      ring
    rw [main_vertical_speed, main_vertical_speed, mul_assoc,
      ← Real.mul_rpow (by positivity) (by positivity), key]
  · intro r h1 h2 m v hh1 hm
    rw [wind_vertical_distribution_eq_map, wind_vertical_distribution_eq_map,
      wind_vertical_distribution_eq_map, List.map_map]
    have hfun : ((fun x : ℚ => x * (h2 / m)) ∘ fun x : ℚ => x * (m / h1))
        = fun x : ℚ => x * (h2 / h1) := by
      funext x
      simp only [Function.comp]
      field_simp
      ring
    rw [hfun]

/-- C9 witness: `C9_composability` applied at speed 3 (reals) and speed 5
(rationals) with heights 1 → 4 through intermediate height 2. -/
theorem C9_witness :
    (0:ℝ) < 1 ∧ (0:ℝ) < 4 ∧ (0:ℝ) < 2 ∧
    main_vertical_speed ((22:ℝ)/100) 4 1 3
      = main_vertical_speed ((22:ℝ)/100) 2 1 3 * ((4:ℝ) / 2) ^ ((22:ℝ)/100) ∧
    ((1:ℚ) ≠ 0) ∧ ((2:ℚ) ≠ 0) ∧
    wind_vertical_distribution (22/100) 4 2 (wind_vertical_distribution (22/100) 2 1 [5])
      = wind_vertical_distribution (22/100) 4 1 [5] :=
  ⟨by norm_num, by norm_num, by norm_num,
    C9_composability.1 3 1 4 2 ((22:ℝ)/100) (by norm_num) (by norm_num) (by norm_num),
    by norm_num, by norm_num,
    C9_composability.2 (22/100) 1 4 2 [5] (by norm_num) (by norm_num)⟩

/-- C4 counterexample: with per-turbine power sums 10.001 and 10.004 the
selector returns the first turbine, although the second has the strictly
larger total energy — because ranking happens on the energies rounded to
two decimals, which coincide here. -/
theorem C4_counterexample :
    select_best_turbine [[10001/1000], [10004/1000]] = some 0 ∧
    (10001/1000 : ℚ) < 10004/1000 := by
  constructor
  · have e1 : python_round2 ((10001:ℚ)/1000) = 10 := by
      rw [python_round2_eq ((10001:ℚ)/1000) 1000 (by norm_num) (by norm_num)]
      norm_num
    have e2 : python_round2 ((10004:ℚ)/1000) = 10 := by
      rw [python_round2_eq ((10004:ℚ)/1000) 1000 (by norm_num) (by norm_num)]
      norm_num
    have h1 : turbine_energies [[(10001:ℚ)/1000], [10004/1000]] = [10, 10] := by
      simp [turbine_energies, e1, e2]
    rw [select_best_turbine, find_maximum_power, h1]
    norm_num [idxmax, idxmaxGo]
  · norm_num

/-- C4 (amended): the selector returns the turbine whose total energy
rounded to two decimals (round half to even, as Python's `round`) is
maximal, and among turbines tying on that rounded value the first in input
order wins; a turbine whose raw total is strictly larger can therefore lose
to an earlier turbine when both round to the same value. -/
theorem C4_selector (powers : List (List ℚ)) (i : ℕ)
    (h : select_best_turbine powers = some i) :
    i < powers.length ∧
    (∀ j, j < powers.length →
      python_round2 (powers.getD j []).sum ≤ python_round2 (powers.getD i []).sum) ∧
    (∀ j, j < i →
      python_round2 (powers.getD j []).sum < python_round2 (powers.getD i []).sum) := by
  have h' : idxmax (turbine_energies powers) = some i := h
  obtain ⟨hlen, hmax, hfirst⟩ := idxmax_spec _ i h'
  have hlen' : (turbine_energies powers).length = powers.length := by
    simp [turbine_energies]
  have hkey : ∀ k, k < powers.length →
      (turbine_energies powers).getD k 0 = python_round2 (powers.getD k []).sum := by
    intro k hk
    have hg := getD_map_of_lt (fun p : List ℚ => python_round2 p.sum) powers k [] 0 hk
    simpa [turbine_energies] using hg
  rw [hlen'] at hlen
  refine ⟨hlen, ?_, ?_⟩
  · intro j hj
    have hm := hmax j (by rw [hlen']; exact hj)
    rwa [hkey j hj, hkey i hlen] at hm
  · intro j hj
    have hf := hfirst j hj
    rwa [hkey j (lt_trans hj hlen), hkey i hlen] at hf

/-- C4 witness: `C4_selector` applied to the two-turbine table with power
sums 1 and 2, where the selector picks index 1. -/
theorem C4_witness :
    select_best_turbine [[(1:ℚ)], [2]] = some 1 ∧
    (1 < ([[(1:ℚ)], [2]]).length ∧
      (∀ j, j < ([[(1:ℚ)], [2]]).length →
        python_round2 (([[(1:ℚ)], [2]]).getD j []).sum
          ≤ python_round2 (([[(1:ℚ)], [2]]).getD 1 []).sum) ∧
      (∀ j, j < 1 →
        python_round2 (([[(1:ℚ)], [2]]).getD j []).sum
          < python_round2 (([[(1:ℚ)], [2]]).getD 1 []).sum)) := by
  have h : select_best_turbine [[(1:ℚ)], [2]] = some 1 := by
    have e1 : python_round2 (1:ℚ) = 1 := by
      rw [python_round2_eq (1:ℚ) 100 (by norm_num) (by norm_num)]
      norm_num
    have e2 : python_round2 (2:ℚ) = 2 := by
      rw [python_round2_eq (2:ℚ) 200 (by norm_num) (by norm_num)]
      norm_num
    have h1 : turbine_energies [[(1:ℚ)], [2]] = [1, 2] := by
      simp [turbine_energies, e1, e2]
    rw [select_best_turbine, find_maximum_power, h1]
    norm_num [idxmax, idxmaxGo]
  exact ⟨h, C4_selector [[(1:ℚ)], [2]] 1 h⟩

end WindProduction
